import Mathlib

set_option autoImplicit false

/-!
A shallow embedding of `colossus/utils.py` from the qube-ai/colossus
repository, together with theorems settling the specification claims
about it.

The repository code under `src/` is embedded directly.  External
collaborators (Django's mail-connection factory and process-wide mail
settings, the GeoIP vendor lookup, the ORM's get-or-create store
operation, the standard-library UUID parser, and the HTTP request
object) are not part of the repository; they are modelled at the
interface boundary the specification describes for them.
-/

namespace Colossus

/-! ## Python truthiness helpers

Per-campaign override fields may be unset (`None`) or empty; Python's
`x or d` falls back to `d` exactly when `x` is falsy (None, empty
string, zero).  These helpers reproduce that semantics for the field
types involved. -/

/-- Truthiness of an optional string: `None` and `""` are falsy. -/
def strTruthy : Option String → Bool
  | none => false
  | some s => s != ""

/-- Python `a or b` for an optional string `a` and string default `b`. -/
def pyOrStr (a : Option String) (b : String) : String :=
  match a with
  | none => b
  | some s => if s == "" then b else s

/-- Truthiness of an optional natural: `None` and `0` are falsy. -/
def natTruthy : Option Nat → Bool
  | none => false
  | some n => n != 0

/-- Python `a or b` for an optional numeric `a` and numeric default `b`. -/
def pyOrNat (a : Option Nat) (b : Nat) : Nat :=
  match a with
  | none => b
  | some n => if n = 0 then b else n

/-! ## Connection resolver (`get_campaign_connection`) -/

/-- Modelled from the spec: the process-wide default mail settings,
an explicitly passed configuration struct holding the default host,
port, username, password and TLS flag used as fallback when
per-campaign overrides are absent (spec sections 6 and 9; in the source
these are the `EMAIL_*` names imported at `utils.py` line 6, outside
the repository). -/
structure Settings where
  EMAIL_HOST_USER : String
  EMAIL_HOST_PASSWORD : String
  EMAIL_HOST : String
  EMAIL_PORT : Nat
  EMAIL_USE_TLS : Bool
deriving DecidableEq, Repr

/-- Modelled from the spec: the per-mailing-list SMTP overrides
(spec section 3, `MailingListConfig`): any field may be unset
(absent/empty).  The `campaigns` app models are not under `src/`. -/
structure MailingList where
  smtp_username : Option String
  smtp_password : Option String
  smtp_host : Option String
  smtp_port : Option Nat
  smtp_use_tls : Bool
  smtp_use_ssl : Bool
  smtp_timeout : Option Nat
  smtp_ssl_keyfile : Option String
  smtp_ssl_certfile : Option String
deriving DecidableEq, Repr

/-- A campaign carries its mailing list's SMTP configuration. -/
structure Campaign where
  mailing_list : MailingList
deriving DecidableEq, Repr

/-- The resolved connection descriptor (spec section 3,
`ConnectionDescriptor`): host, port, credentials, STARTTLS flag
(`use_tls`), implicit-SSL flag (`use_ssl`), timeout, and the optional
key/cert file paths. -/
structure Connection where
  host : String
  port : Nat
  username : String
  password : String
  use_tls : Bool
  use_ssl : Bool
  timeout : Option Nat
  ssl_keyfile : Option String
  ssl_certfile : Option String
deriving DecidableEq, Repr

/-- Modelled from the spec: `django.core.mail.get_connection()` with no
arguments returns the process-wide default connection descriptor
(spec section 4.1 step 1 and section 6): the default host, port,
username, password and TLS flag, with no SSL override, timeout or
key/cert files (no process-wide fallback is defined for those,
spec section 4.1 step 3). -/
def get_connection_default (s : Settings) : Connection :=
  { host := s.EMAIL_HOST
    port := s.EMAIL_PORT
    username := s.EMAIL_HOST_USER
    password := s.EMAIL_HOST_PASSWORD
    use_tls := s.EMAIL_USE_TLS
    use_ssl := false
    timeout := none
    ssl_keyfile := none
    ssl_certfile := none }

/-- Modelled from the spec: `get_connection(host=..., port=...,
username=..., password=...)` constructs the descriptor with the given
host/port/username/password (spec section 4.1 step 4); the TLS, SSL,
timeout and file fields are marked afterwards by the resolver
(steps 5 to 7). -/
def get_connection_kwargs (host : String) (port : Nat)
    (username : String) (password : String) : Connection :=
  { host := host
    port := port
    username := username
    password := password
    use_tls := false
    use_ssl := false
    timeout := none
    ssl_keyfile := none
    ssl_certfile := none }

/-- Embedding of `get_campaign_connection` (`utils.py` lines 108-132).
A `none` campaign is Python's falsy case (line 109).  Each `or`
fallback and each `if` marking follows the source line by line. -/
def get_campaign_connection (campaign : Option Campaign) (s : Settings) :
    Connection :=
  match campaign with
  | none => get_connection_default s
  | some campaign =>
    let smtp_username := pyOrStr campaign.mailing_list.smtp_username s.EMAIL_HOST_USER
    let smtp_password := pyOrStr campaign.mailing_list.smtp_password s.EMAIL_HOST_PASSWORD
    let smtp_host := pyOrStr campaign.mailing_list.smtp_host s.EMAIL_HOST
    let smtp_port := pyOrNat campaign.mailing_list.smtp_port s.EMAIL_PORT
    let use_tls := campaign.mailing_list.smtp_use_tls || s.EMAIL_USE_TLS
    let use_ssl := campaign.mailing_list.smtp_use_ssl
    let timeout := campaign.mailing_list.smtp_timeout
    let smtp_ssl_keyfile := campaign.mailing_list.smtp_ssl_keyfile
    let smtp_ssl_certfile := campaign.mailing_list.smtp_ssl_certfile
    let connection := get_connection_kwargs smtp_host smtp_port smtp_username smtp_password
    let connection := if use_tls then { connection with use_tls := use_tls } else connection
    let connection := if natTruthy timeout then { connection with timeout := timeout } else connection
    let connection :=
      if use_ssl && strTruthy smtp_ssl_certfile && strTruthy smtp_ssl_keyfile then
        { connection with
            use_ssl := use_ssl
            ssl_keyfile := smtp_ssl_keyfile
            ssl_certfile := smtp_ssl_certfile }
      else connection
    connection

/-! ## Client IP extraction (`get_client_ip`, `ip_address_key`) -/

/-- Modelled from the spec: the request headers relevant to IP
extraction — the forwarded-for header and the direct peer address
(`request.META`; the Django request object is external). -/
structure RequestMeta where
  HTTP_X_FORWARDED_FOR : Option String
  REMOTE_ADDR : Option String
deriving DecidableEq, Repr

/-- `x.split(',')[0]`: the first comma-separated entry of a non-empty
string, i.e. its prefix up to (excluding) the first comma.  Written
over the character list so that it evaluates by kernel reduction;
`Char.ofNat 44` is the comma. -/
def firstForwardedEntry (s : String) : String :=
  String.mk (s.toList.takeWhile (fun c => c != Char.ofNat 44))

/-- Embedding of `get_client_ip` (`utils.py` lines 19-42): if the
forwarded-for header is present and non-empty, return its first
comma-separated entry, else return the peer address (which may itself
be absent, hence the `Option` result). -/
def get_client_ip (request : RequestMeta) : Option String :=
  match request.HTTP_X_FORWARDED_FOR with
  | some x_forwarded_for =>
    if x_forwarded_for == "" then request.REMOTE_ADDR
    else some (firstForwardedEntry x_forwarded_for)
  | none => request.REMOTE_ADDR

/-- Embedding of `ip_address_key` (`utils.py` lines 45-57): the group
parameter is ignored; the result is the client IP. -/
def ip_address_key (group : String) (request : RequestMeta) : Option String :=
  let _ := group
  get_client_ip request

/-! ## GeoIP location (`get_location`) -/

/-- Modelled from the spec: the record returned by the vendor GeoIP
`city(ip_address)` lookup — country code, country name, optional city
name (spec section 6). -/
structure GeoData where
  country_code : Option String
  country_name : String
  city : Option String
deriving DecidableEq, Repr

/-- A persisted Country row: keyed by `code`, carrying a `name`. -/
structure CountryRow where
  code : String
  name : String
deriving DecidableEq, Repr

/-- A persisted City row: keyed by `(name, country)`; the country is
identified by its unique code. -/
structure CityRow where
  name : String
  country_code : String
deriving DecidableEq, Repr

/-- The persistent store of Country and City lookup-table rows. -/
structure DB where
  countries : List CountryRow
  cities : List CityRow
deriving DecidableEq, Repr

/-- Modelled from the spec: the ORM's idempotent get-or-create on
Country keyed by `code`, creating with the supplied default `name`
only when no row with that code exists. -/
def countryGetOrCreate (db : DB) (code : String) (name : String) :
    CountryRow × DB :=
  match db.countries.find? (fun c => c.code == code) with
  | some c => (c, db)
  | none =>
    let c : CountryRow := ⟨code, name⟩
    (c, { db with countries := db.countries ++ [c] })

/-- Modelled from the spec: the ORM's idempotent get-or-create on City
keyed by `(name, country)`. -/
def cityGetOrCreate (db : DB) (name : String) (country_code : String) :
    CityRow × DB :=
  match db.cities.find? (fun c => c.name == name && c.country_code == country_code) with
  | some c => (c, db)
  | none =>
    let c : CityRow := ⟨name, country_code⟩
    (c, { db with cities := db.cities ++ [c] })

/-- The outcome of a `get_location` call: the optional City result,
the store afterwards, and any warning messages logged. -/
structure LocResult where
  city : Option CityRow
  db : DB
  warnings : List String
deriving DecidableEq, Repr

/-- Embedding of `get_location` (`utils.py` lines 60-81).  The vendor
lookup is passed as a function `geo`; `geo ip = none` models the
vendor raising its address-not-found condition, which the source
catches, logs and converts to an absent result.  The embedding is a
total function: no exception escapes. -/
def get_location (geo : String → Option GeoData) (ip_address : String)
    (db : DB) : LocResult :=
  match geo ip_address with
  | none =>
    { city := none
      db := db
      warnings := ["Address not found for ip_address = \"" ++ ip_address ++ "\""] }
  | some geodata =>
    match geodata.country_code with
    | none => { city := none, db := db, warnings := [] }
    | some code =>
      let cdb := countryGetOrCreate db code geodata.country_name
      match geodata.city with
      | none => { city := none, db := cdb.2, warnings := [] }
      | some city_name =>
        let ydb := cityGetOrCreate cdb.2 city_name cdb.1.code
        { city := some ydb.1, db := ydb.2, warnings := [] }

/-- Number of Country rows with a given code. -/
def countCountry (db : DB) (code : String) : Nat :=
  (db.countries.filter (fun c => c.code == code)).length

/-- Number of City rows with a given (name, country code) key. -/
def countCity (db : DB) (name : String) (country_code : String) : Nat :=
  (db.cities.filter (fun c => c.name == name && c.country_code == country_code)).length

/-! ## UUID validation (`is_uuid`) -/

/-- `s.replace(pat, '')` on character lists: delete every
non-overlapping occurrence of `pat`, scanning left to right.  The fuel
argument (instantiated with the list length) makes the recursion
structural so that it evaluates by kernel reduction; each step
consumes at least one character, so the fuel never runs out. -/
def removeAll (pat : List Char) : Nat → List Char → List Char
  | 0, l => l
  | _ + 1, [] => []
  | fuel + 1, c :: rest =>
    if pat.isPrefixOf (c :: rest) then
      removeAll pat fuel (List.drop (pat.length - 1) rest)
    else
      c :: removeAll pat fuel rest

/-- Modelled from the spec: the standard library's UUID string parser
(`uuid.UUID(str)`, outside the repository), which deletes `urn:` and
`uuid:` markers, strips surrounding braces (`Char.ofNat 123/125`),
deletes hyphens (`Char.ofNat 45`), and then requires exactly 32
hexadecimal digits, returning the 128-bit value or failing on
malformed input. -/
def uuidParse (s : String) : Option Nat :=
  let t1 := removeAll ("urn:".toList) s.toList.length s.toList
  let t2 := removeAll ("uuid:".toList) t1.length t1
  let isBrace := fun c => c == Char.ofNat 123 || c == Char.ofNat 125
  let chars := ((t2.dropWhile isBrace).reverse.dropWhile isBrace).reverse
  let hex := chars.filter (fun c => c != Char.ofNat 45)
  let hexVal := fun (c : Char) => if c.isDigit then c.toNat - 48 else c.toLower.toNat - 87
  let isHexDig := fun (c : Char) => c.isDigit || (97 ≤ c.toLower.toNat && c.toLower.toNat ≤ 102)
  if hex.length == 32 && hex.all isHexDig then
    some (hex.foldl (fun acc c => acc * 16 + hexVal c) 0)
  else
    none

/-- Embedding of `is_uuid` (`utils.py` lines 84-89): parse, converting
a malformed-format failure to `false` instead of propagating it. -/
def is_uuid (uuid_value : String) : Bool :=
  match uuidParse uuid_value with
  | some _ => true
  | none => false

/-- A concrete GeoIP stub: two addresses resolving to the same
country code (with differing vendor country names) and the same city
name, every other address not found. -/
def geoStub : String → Option GeoData := fun ip =>
  if ip == "1.1.1.1" then some ⟨some "US", "United States", some "New York"⟩
  else if ip == "2.2.2.2" then some ⟨some "US", "USA", some "New York"⟩
  else none

/-! ## Helper lemmas -/

theorem pyOrStr_falsy (a : Option String) (b : String) (h : strTruthy a = false) :
    pyOrStr a b = b := by
  cases a with
  | none => rfl
  | some s =>
    simp [strTruthy] at h
    simp [pyOrStr, h]

theorem pyOrNat_falsy (a : Option Nat) (b : Nat) (h : natTruthy a = false) :
    pyOrNat a b = b := by
  cases a with
  | none => rfl
  | some n =>
    simp [natTruthy] at h
    simp [pyOrNat, h]

theorem countryGetOrCreate_code (db : DB) (code name : String) :
    (countryGetOrCreate db code name).1.code = code := by
  cases hf : db.countries.find? (fun c => c.code == code) with
  | none => simp [countryGetOrCreate, hf]
  | some c =>
    have hp := List.find?_some hf
    simp [countryGetOrCreate, hf]
    exact eq_of_beq hp

theorem countryGetOrCreate_cities (db : DB) (code name : String) :
    (countryGetOrCreate db code name).2.cities = db.cities := by
  cases hf : db.countries.find? (fun c => c.code == code) <;>
    simp [countryGetOrCreate, hf]

theorem cityGetOrCreate_countries (db : DB) (name country_code : String) :
    (cityGetOrCreate db name country_code).2.countries = db.countries := by
  cases hf : db.cities.find? (fun c => c.name == name && c.country_code == country_code) <;>
    simp [cityGetOrCreate, hf]

theorem countCountry_countryGetOrCreate (db : DB) (code name : String) :
    countCountry (countryGetOrCreate db code name).2 code =
      if countCountry db code = 0 then 1 else countCountry db code := by
  cases hf : db.countries.find? (fun c => c.code == code) with
  | some c =>
    have hpc := List.find?_some hf
    have hmem : c ∈ db.countries.filter (fun c => c.code == code) :=
      List.mem_filter.mpr ⟨List.mem_of_find?_eq_some hf, hpc⟩
    have hne : countCountry db code ≠ 0 := by
      unfold countCountry
      intro h0
      rw [List.length_eq_zero] at h0
      rw [h0] at hmem
      exact absurd hmem (List.not_mem_nil c)
    simp [countryGetOrCreate, hf, hne]
  | none =>
    have h0 : db.countries.filter (fun c => c.code == code) = [] := by
      rw [List.filter_eq_nil_iff]
      intro a ha
      simpa using List.find?_eq_none.mp hf a ha
    simp [countryGetOrCreate, hf, countCountry, List.filter_append, h0]

theorem countCity_cityGetOrCreate (db : DB) (name country_code : String) :
    countCity (cityGetOrCreate db name country_code).2 name country_code =
      if countCity db name country_code = 0 then 1
      else countCity db name country_code := by
  cases hf : db.cities.find? (fun c => c.name == name && c.country_code == country_code) with
  | some c =>
    have hpc := List.find?_some hf
    have hmem : c ∈ db.cities.filter (fun c => c.name == name && c.country_code == country_code) :=
      List.mem_filter.mpr ⟨List.mem_of_find?_eq_some hf, hpc⟩
    have hne : countCity db name country_code ≠ 0 := by
      unfold countCity
      intro h0
      rw [List.length_eq_zero] at h0
      rw [h0] at hmem
      exact absurd hmem (List.not_mem_nil c)
    simp [cityGetOrCreate, hf, hne]
  | none =>
    have h0 : db.cities.filter (fun c => c.name == name && c.country_code == country_code) = [] := by
      rw [List.filter_eq_nil_iff]
      intro a ha
      simpa using List.find?_eq_none.mp hf a ha
    simp [cityGetOrCreate, hf, countCity, List.filter_append, h0]

theorem countCountry_cityGetOrCreate (db : DB) (name country_code code : String) :
    countCountry (cityGetOrCreate db name country_code).2 code = countCountry db code := by
  unfold countCountry
  rw [cityGetOrCreate_countries]

theorem countCity_countryGetOrCreate (db : DB) (code cname name country_code : String) :
    countCity (countryGetOrCreate db code cname).2 name country_code =
      countCity db name country_code := by
  unfold countCity
  rw [countryGetOrCreate_cities]

theorem countCountry_get_location (geo : String → Option GeoData) (ip : String)
    (db : DB) (g : GeoData) (cc : String)
    (hg : geo ip = some g) (hcc : g.country_code = some cc) :
    countCountry (get_location geo ip db).db cc =
      if countCountry db cc = 0 then 1 else countCountry db cc := by
  cases hcity : g.city with
  | none =>
    simp only [get_location, hg, hcc, hcity]
    exact countCountry_countryGetOrCreate db cc g.country_name
  | some cn =>
    simp only [get_location, hg, hcc, hcity]
    rw [countCountry_cityGetOrCreate]
    exact countCountry_countryGetOrCreate db cc g.country_name

theorem countCity_get_location (geo : String → Option GeoData) (ip : String)
    (db : DB) (g : GeoData) (cc cn : String)
    (hg : geo ip = some g) (hcc : g.country_code = some cc) (hcn : g.city = some cn) :
    countCity (get_location geo ip db).db cn cc =
      if countCity db cn cc = 0 then 1 else countCity db cn cc := by
  simp only [get_location, hg, hcc, hcn]
  rw [countryGetOrCreate_code]
  rw [countCity_cityGetOrCreate]
  rw [countCity_countryGetOrCreate]

/-! ## Additional structural lemmas for the frame property -/

theorem countryGetOrCreate_countries_extends (db : DB) (code name : String) :
    ∃ t, (countryGetOrCreate db code name).2.countries = db.countries ++ t := by
  cases hf : db.countries.find? (fun c => c.code == code) with
  | some c => exact ⟨[], by simp [countryGetOrCreate, hf]⟩
  | none => exact ⟨[⟨code, name⟩], by simp [countryGetOrCreate, hf]⟩

theorem cityGetOrCreate_cities_extends (db : DB) (name country_code : String) :
    ∃ t, (cityGetOrCreate db name country_code).2.cities = db.cities ++ t := by
  cases hf : db.cities.find? (fun c => c.name == name && c.country_code == country_code) with
  | some c => exact ⟨[], by simp [cityGetOrCreate, hf]⟩
  | none => exact ⟨[⟨name, country_code⟩], by simp [cityGetOrCreate, hf]⟩

/-! ## Claim theorems -/

/-- C1: for every campaign configuration in which every per-campaign
override field (username, password, host, port, use-tls, use-ssl,
timeout, ssl-keyfile, ssl-certfile) is empty or absent,
`get_campaign_connection` on that campaign produces a connection
descriptor equal to the one produced on no campaign, i.e. equal to the
process-wide default descriptor. -/
theorem C1_empty_overrides_give_default (s : Settings) (ml : MailingList)
    (hu : strTruthy ml.smtp_username = false)
    (hp : strTruthy ml.smtp_password = false)
    (hh : strTruthy ml.smtp_host = false)
    (hpo : natTruthy ml.smtp_port = false)
    (ht : ml.smtp_use_tls = false)
    (hs : ml.smtp_use_ssl = false)
    (hto : natTruthy ml.smtp_timeout = false)
    (hk : strTruthy ml.smtp_ssl_keyfile = false)
    (hc : strTruthy ml.smtp_ssl_certfile = false) :
    get_campaign_connection (some ⟨ml⟩) s = get_campaign_connection none s := by
  have h1 := pyOrStr_falsy ml.smtp_username s.EMAIL_HOST_USER hu
  have h2 := pyOrStr_falsy ml.smtp_password s.EMAIL_HOST_PASSWORD hp
  have h3 := pyOrStr_falsy ml.smtp_host s.EMAIL_HOST hh
  have h4 := pyOrNat_falsy ml.smtp_port s.EMAIL_PORT hpo
  cases hT : s.EMAIL_USE_TLS <;>
    simp [get_campaign_connection, get_connection_kwargs, get_connection_default,
      h1, h2, h3, h4, ht, hs, hto, hk, hc, hT]

/-- Witness for C1: a concrete campaign with every override field
empty or absent resolves to the default descriptor. -/
theorem C1_witness :
    get_campaign_connection
        (some ⟨⟨none, some "", none, some 0, false, false, none, none, some ""⟩⟩)
        ⟨"user", "pw", "smtp.example.com", 587, true⟩ =
      get_campaign_connection none ⟨"user", "pw", "smtp.example.com", 587, true⟩ :=
  C1_empty_overrides_give_default ⟨"user", "pw", "smtp.example.com", 587, true⟩
    ⟨none, some "", none, some 0, false, false, none, none, some ""⟩
    (by decide) (by decide) (by decide) (by decide) (by decide) (by decide)
    (by decide) (by decide) (by decide)

/-- C2: with use-ssl truthy and both cert and key files present, the
returned descriptor has implicit-SSL set with both file paths
attached, regardless of the use-tls flag; and when the resolved
use-tls flag is also truthy, the STARTTLS marking is applied as well,
so both flags may be set on the same descriptor. -/
theorem C2_ssl_and_tls_both_applied (s : Settings) (ml : MailingList)
    (hssl : ml.smtp_use_ssl = true)
    (hc : strTruthy ml.smtp_ssl_certfile = true)
    (hk : strTruthy ml.smtp_ssl_keyfile = true) :
    (get_campaign_connection (some ⟨ml⟩) s).use_ssl = true ∧
    (get_campaign_connection (some ⟨ml⟩) s).ssl_keyfile = ml.smtp_ssl_keyfile ∧
    (get_campaign_connection (some ⟨ml⟩) s).ssl_certfile = ml.smtp_ssl_certfile ∧
    ((ml.smtp_use_tls || s.EMAIL_USE_TLS) = true →
      (get_campaign_connection (some ⟨ml⟩) s).use_tls = true) := by
  cases hT : (ml.smtp_use_tls || s.EMAIL_USE_TLS) <;>
    cases hTo : natTruthy ml.smtp_timeout <;>
      simp [get_campaign_connection, get_connection_kwargs, hssl, hc, hk, hT, hTo]

/-- Witness for C2: a campaign with use-ssl, use-tls, cert and key all
set yields a descriptor with both the SSL and STARTTLS flags set and
both file paths attached. -/
theorem C2_witness :
    (get_campaign_connection
        (some ⟨⟨none, none, none, none, true, true, some 30, some "key.pem", some "cert.pem"⟩⟩)
        ⟨"u", "p", "h", 25, false⟩).use_ssl = true ∧
    (get_campaign_connection
        (some ⟨⟨none, none, none, none, true, true, some 30, some "key.pem", some "cert.pem"⟩⟩)
        ⟨"u", "p", "h", 25, false⟩).ssl_keyfile = some "key.pem" ∧
    (get_campaign_connection
        (some ⟨⟨none, none, none, none, true, true, some 30, some "key.pem", some "cert.pem"⟩⟩)
        ⟨"u", "p", "h", 25, false⟩).ssl_certfile = some "cert.pem" ∧
    (get_campaign_connection
        (some ⟨⟨none, none, none, none, true, true, some 30, some "key.pem", some "cert.pem"⟩⟩)
        ⟨"u", "p", "h", 25, false⟩).use_tls = true := by
  have h := C2_ssl_and_tls_both_applied ⟨"u", "p", "h", 25, false⟩
    ⟨none, none, none, none, true, true, some 30, some "key.pem", some "cert.pem"⟩
    (by decide) (by decide) (by decide)
  exact ⟨h.1, h.2.1, h.2.2.1, h.2.2.2 (by decide)⟩

/-- C3: implicit-SSL is selected only when both a cert file and a key
file are present; if use-ssl is truthy but only one of cert/key is
present, the ssl fields are never set and the TLS mode is STARTTLS or
none according to the resolved use-tls flag. -/
theorem C3_ssl_needs_both_files (s : Settings) (ml : MailingList) :
    ((get_campaign_connection (some ⟨ml⟩) s).use_ssl = true →
      strTruthy ml.smtp_ssl_certfile = true ∧ strTruthy ml.smtp_ssl_keyfile = true) ∧
    (ml.smtp_use_ssl = true →
      strTruthy ml.smtp_ssl_certfile ≠ strTruthy ml.smtp_ssl_keyfile →
      (get_campaign_connection (some ⟨ml⟩) s).ssl_keyfile = none ∧
      (get_campaign_connection (some ⟨ml⟩) s).ssl_certfile = none ∧
      (get_campaign_connection (some ⟨ml⟩) s).use_ssl = false ∧
      (get_campaign_connection (some ⟨ml⟩) s).use_tls =
        (ml.smtp_use_tls || s.EMAIL_USE_TLS)) := by
  cases hS : ml.smtp_use_ssl <;>
    cases hC : strTruthy ml.smtp_ssl_certfile <;>
      cases hK : strTruthy ml.smtp_ssl_keyfile <;>
        cases hT : (ml.smtp_use_tls || s.EMAIL_USE_TLS) <;>
          cases hTo : natTruthy ml.smtp_timeout <;>
            simp [get_campaign_connection, get_connection_kwargs, hS, hC, hK, hT, hTo]

/-- Witness for C3: use-ssl truthy with a cert file but no key file
leaves the ssl fields unset and the TLS mode off. -/
theorem C3_witness :
    (get_campaign_connection
        (some ⟨⟨none, none, none, none, false, true, none, none, some "cert.pem"⟩⟩)
        ⟨"u", "p", "h", 25, false⟩).ssl_keyfile = none ∧
    (get_campaign_connection
        (some ⟨⟨none, none, none, none, false, true, none, none, some "cert.pem"⟩⟩)
        ⟨"u", "p", "h", 25, false⟩).ssl_certfile = none ∧
    (get_campaign_connection
        (some ⟨⟨none, none, none, none, false, true, none, none, some "cert.pem"⟩⟩)
        ⟨"u", "p", "h", 25, false⟩).use_ssl = false ∧
    (get_campaign_connection
        (some ⟨⟨none, none, none, none, false, true, none, none, some "cert.pem"⟩⟩)
        ⟨"u", "p", "h", 25, false⟩).use_tls = false := by
  have h := (C3_ssl_needs_both_files ⟨"u", "p", "h", 25, false⟩
    ⟨none, none, none, none, false, true, none, none, some "cert.pem"⟩).2
    (by decide) (by decide)
  exact ⟨h.1, h.2.1, h.2.2.1, h.2.2.2⟩

/-- C4: called with no campaign, get_campaign_connection returns
exactly the process-wide default connection descriptor produced by
the default mail-connection factory, unchanged. -/
theorem C4_no_campaign_gives_factory_default (s : Settings) :
    get_campaign_connection none s = get_connection_default s := rfl

/-- C5: on an address-not-found GeoIP lookup, get_location logs a
warning, returns an absent result, creates no Country or City row,
and never propagates the exception (the embedding is a total
function). -/
theorem C5_not_found_logged_absent (geo : String → Option GeoData)
    (ip : String) (db : DB) (h : geo ip = none) :
    (get_location geo ip db).city = none ∧
    (get_location geo ip db).db = db ∧
    (get_location geo ip db).warnings =
      ["Address not found for ip_address = \"" ++ ip ++ "\""] := by
  simp [get_location, h]

/-- Witness for C5: a lookup that always reports not-found leaves an
empty store untouched, yields no city and logs one warning. -/
theorem C5_witness :
    (get_location (fun _ => none) "10.0.0.1" ⟨[], []⟩).city = none ∧
    (get_location (fun _ => none) "10.0.0.1" ⟨[], []⟩).db = ⟨[], []⟩ ∧
    (get_location (fun _ => none) "10.0.0.1" ⟨[], []⟩).warnings =
      ["Address not found for ip_address = \"10.0.0.1\""] :=
  C5_not_found_logged_absent (fun _ => none) "10.0.0.1" ⟨[], []⟩ rfl

/-- C6: for two get_location calls whose lookups resolve to the same
country code, exactly one Country row for that code exists afterwards
(the first call creates it if absent, the later call reuses it), and
the same holds for City rows keyed by (name, country). -/
theorem C6_get_or_create_idempotent (geo : String → Option GeoData)
    (ip1 ip2 : String) (db : DB) (g1 g2 : GeoData) (cc : String)
    (h1 : geo ip1 = some g1) (h2 : geo ip2 = some g2)
    (hc1 : g1.country_code = some cc) (hc2 : g2.country_code = some cc) :
    (countCountry db cc ≤ 1 →
      countCountry (get_location geo ip2 (get_location geo ip1 db).db).db cc = 1) ∧
    (∀ cn : String, g1.city = some cn → g2.city = some cn →
      countCity db cn cc ≤ 1 →
      countCity (get_location geo ip2 (get_location geo ip1 db).db).db cn cc = 1) := by
  constructor
  · intro hle
    rw [countCountry_get_location geo ip2 _ g2 cc h2 hc2,
        countCountry_get_location geo ip1 db g1 cc h1 hc1]
    have h01 : countCountry db cc = 0 ∨ countCountry db cc = 1 := by omega
    rcases h01 with h | h <;> simp [h]
  · intro cn hcn1 hcn2 hle
    rw [countCity_get_location geo ip2 _ g2 cc cn h2 hc2 hcn2,
        countCity_get_location geo ip1 db g1 cc cn h1 hc1 hcn1]
    have h01 : countCity db cn cc = 0 ∨ countCity db cn cc = 1 := by omega
    rcases h01 with h | h <;> simp [h]

/-- Witness for C6: two lookups through geoStub both resolve to
country code "US" and city "New York"; starting from an empty store,
exactly one Country row and one City row exist afterwards. -/
theorem C6_witness :
    countCountry (get_location geoStub "2.2.2.2"
      (get_location geoStub "1.1.1.1" ⟨[], []⟩).db).db "US" = 1 ∧
    countCity (get_location geoStub "2.2.2.2"
      (get_location geoStub "1.1.1.1" ⟨[], []⟩).db).db "New York" "US" = 1 := by
  have h := C6_get_or_create_idempotent geoStub "1.1.1.1" "2.2.2.2" ⟨[], []⟩
    ⟨some "US", "United States", some "New York"⟩
    ⟨some "US", "USA", some "New York"⟩ "US"
    (by decide) (by decide) rfl rfl
  exact ⟨h.1 (by decide), h.2 "New York" rfl rfl (by decide)⟩

/-- C7: no get_location call ever modifies or deletes an existing
Country or City row: the row lists afterwards extend the row lists
before, so every pre-existing row (including the name of a Country
row whose code is looked up again) is unchanged. -/
theorem C7_rows_never_modified (geo : String → Option GeoData)
    (ip : String) (db : DB) :
    (∃ t, (get_location geo ip db).db.countries = db.countries ++ t) ∧
    (∃ t, (get_location geo ip db).db.cities = db.cities ++ t) := by
  cases hg : geo ip with
  | none => exact ⟨⟨[], by simp [get_location, hg]⟩, ⟨[], by simp [get_location, hg]⟩⟩
  | some g =>
    cases hcc : g.country_code with
    | none => exact ⟨⟨[], by simp [get_location, hg, hcc]⟩, ⟨[], by simp [get_location, hg, hcc]⟩⟩
    | some code =>
      cases hcity : g.city with
      | none =>
        refine ⟨?_, ?_⟩
        · obtain ⟨t, ht⟩ := countryGetOrCreate_countries_extends db code g.country_name
          refine ⟨t, ?_⟩
          simp only [get_location, hg, hcc, hcity]
          exact ht
        · refine ⟨[], ?_⟩
          simp only [get_location, hg, hcc, hcity]
          rw [countryGetOrCreate_cities]
          simp
      | some cn =>
        refine ⟨?_, ?_⟩
        · obtain ⟨t, ht⟩ := countryGetOrCreate_countries_extends db code g.country_name
          refine ⟨t, ?_⟩
          simp only [get_location, hg, hcc, hcity]
          rw [cityGetOrCreate_countries]
          exact ht
        · obtain ⟨t, ht⟩ := cityGetOrCreate_cities_extends
            (countryGetOrCreate db code g.country_name).2 cn
            (countryGetOrCreate db code g.country_name).1.code
          refine ⟨t, ?_⟩
          simp only [get_location, hg, hcc, hcity]
          rw [ht, countryGetOrCreate_cities]

/-- C8: get_client_ip returns the first comma-separated entry of the
forwarded-for header when that header is present and non-empty, and
otherwise (header absent or present but empty) returns the direct
peer address; in particular forwarded-for "1.2.3.4, 5.6.7.8" yields
"1.2.3.4", and an absent header with peer address "9.9.9.9" yields
"9.9.9.9". -/
theorem C8_client_ip_extraction :
    (∀ (m : RequestMeta) (f : String), m.HTTP_X_FORWARDED_FOR = some f → f ≠ "" →
      get_client_ip m = some (firstForwardedEntry f)) ∧
    (∀ m : RequestMeta,
      (m.HTTP_X_FORWARDED_FOR = none ∨ m.HTTP_X_FORWARDED_FOR = some "") →
      get_client_ip m = m.REMOTE_ADDR) ∧
    get_client_ip ⟨some "1.2.3.4, 5.6.7.8", some "10.0.0.1"⟩ = some "1.2.3.4" ∧
    get_client_ip ⟨none, some "9.9.9.9"⟩ = some "9.9.9.9" := by
  refine ⟨?_, ?_, by decide, by decide⟩
  · intro m f hf hne
    simp [get_client_ip, hf, hne]
  · intro m hm
    rcases hm with hm | hm <;> simp [get_client_ip, hm]

/-- Witness for C8: a populated forwarded-for header, an absent one,
and a present-but-empty one, each hypothesis discharged at a concrete
request. -/
theorem C8_witness :
    get_client_ip ⟨some "1.2.3.4, 5.6.7.8", some "10.0.0.1"⟩ =
      some (firstForwardedEntry "1.2.3.4, 5.6.7.8") ∧
    get_client_ip ⟨none, some "9.9.9.9"⟩ = some "9.9.9.9" ∧
    get_client_ip ⟨some "", some "9.9.9.9"⟩ = some "9.9.9.9" :=
  ⟨C8_client_ip_extraction.1 ⟨some "1.2.3.4, 5.6.7.8", some "10.0.0.1"⟩
      "1.2.3.4, 5.6.7.8" rfl (by decide),
    C8_client_ip_extraction.2.1 ⟨none, some "9.9.9.9"⟩ (Or.inl rfl),
    C8_client_ip_extraction.2.1 ⟨some "", some "9.9.9.9"⟩ (Or.inr rfl)⟩

/-- C9: is_uuid returns true exactly when the string parses as a
well-formed UUID, converting a malformed-format parse failure into
false rather than propagating it (the embedding is a total function);
in particular is_uuid "not-a-uuid" is false and a well-formed UUID
string yields true. -/
theorem C9_is_uuid_total_boolean :
    (∀ s : String, is_uuid s = (uuidParse s).isSome) ∧
    is_uuid "not-a-uuid" = false ∧
    is_uuid "12345678-1234-5678-1234-567812345678" = true := by
  refine ⟨fun s => ?_, by decide, by decide⟩
  cases h : uuidParse s <;> simp [is_uuid, h]

/-- C10: ip_address_key ignores its group parameter: any two group
values give the same result, and both equal get_client_ip on the same
request. -/
theorem C10_group_has_no_effect (g1 g2 : String) (r : RequestMeta) :
    ip_address_key g1 r = ip_address_key g2 r ∧
    ip_address_key g1 r = get_client_ip r :=
  ⟨rfl, rfl⟩

end Colossus
